import Mathlib

/-!
Shallow embedding of the tribuanalyzer-pro metrics engine.

Sources embedded here:
- the Meta campaigns API route (metrics normalization: per-campaign record
  construction, numeric-string parsing, action extraction, roas derivation);
- the dashboard client (health classification, status filtering, account
  totals reduction, chat stream consumption with cancellation);
- the analyze/chat API routes (ordered two-model fallback with a synthetic
  plain-text error message once the last model fails).

Modelling conventions: JavaScript numbers are idealized as exact rationals,
with an explicit NaN constructor for the not-a-number results that
parseFloat and parseInt produce on unparseable strings (the embedding does
not model IEEE rounding or infinities; none of the inputs used below
exercise them).  Fallible paths in the source never throw: parseFloat and
parseInt return NaN rather than raising, and each embedded operation is a
total Lean function mirroring that control flow.
-/

namespace TribuAnalyzer

/-- A JavaScript number as produced by the normalization route: either an
exact rational value or NaN (the result of a failed parse). -/
inductive JsNum where
  | nan : JsNum
  | num : ℚ → JsNum
deriving DecidableEq

/-- The JS comparison `x > 0` on a number: false for NaN. -/
def JsNum.gtZero : JsNum → Bool
  | .nan => false
  | .num q => decide (0 < q)

/-- JS division as used for roas (`revenue / spend`): NaN propagates; the
route only divides when the divisor is a number strictly greater than zero,
so the divisor-zero case (mapped to NaN here) is unreachable in context. -/
def JsNum.div : JsNum → JsNum → JsNum
  | .num a, .num b => if b = 0 then .nan else .num (a / b)
  | _, _ => .nan

/-- Whether a JS number is strictly negative (NaN is not). -/
def JsNum.isNeg : JsNum → Bool
  | .nan => false
  | .num q => decide (q < 0)

/-- The JS idiom `maybeString || defaultString`: an absent value or the
empty string (both falsy) fall back to the default. -/
def jsOrStr (o : Option String) (d : String) : String :=
  match o with
  | none => d
  | some s => if s = "" then d else s

/-- The JS idiom `maybeNumber || 0` on an (idealized, non-NaN) number:
zero is falsy, every other value passes through, so it is the identity. -/
def jsOrZero (q : ℚ) : ℚ :=
  if q = 0 then 0 else q

/-- Leading-whitespace skip performed by parseFloat and parseInt. -/
def skipWs : List Char → List Char
  | [] => []
  | c :: cs => if c = ' ' ∨ c = '\t' ∨ c = '\n' ∨ c = '\r' then skipWs cs else c :: cs

/-- Digit run interpreted in base 10. -/
def digitsToNat (ds : List Char) : Nat :=
  ds.foldl (fun a c => a * 10 + (c.toNat - 48)) 0

/-- Hexadecimal digit test, for the parseInt 0x-prefix path. -/
def isHexDigitChar (c : Char) : Bool :=
  c.isDigit || ('a' ≤ c && c ≤ 'f') || ('A' ≤ c && c ≤ 'F')

/-- Hex digit run interpreted in base 16. -/
def hexDigitsToNat (ds : List Char) : Nat :=
  ds.foldl (fun a c =>
    a * 16 + (if c.isDigit then c.toNat - 48
              else if 'a' ≤ c then c.toNat - 87 else c.toNat - 55)) 0

/-- Leading sign of a numeric literal; returns (isNegative, remainder). -/
def takeSign : List Char → Bool × List Char
  | '-' :: cs => (true, cs)
  | '+' :: cs => (false, cs)
  | cs => (false, cs)

/-- JavaScript parseFloat: skip whitespace, optional sign, decimal digits
with an optional fractional part and an optional exponent; the result is
the longest numeric prefix, or NaN when no digit is found.  (Idealized to
exact rationals; the Infinity literal is out of scope of every claim and is
mapped to NaN.) -/
def jsParseFloat (s : String) : JsNum :=
  let cs := skipWs s.toList
  let sgn := takeSign cs
  let intPart := sgn.2.takeWhile Char.isDigit
  let afterInt := sgn.2.dropWhile Char.isDigit
  let fracSplit : List Char × List Char :=
    match afterInt with
    | '.' :: t => (t.takeWhile Char.isDigit, t.dropWhile Char.isDigit)
    | _ => ([], afterInt)
  if intPart = [] ∧ fracSplit.1 = [] then .nan
  else
    let expVal : ℤ :=
      match fracSplit.2 with
      | e :: t =>
        if e = 'e' ∨ e = 'E' then
          let esgn := takeSign t
          let eds := esgn.2.takeWhile Char.isDigit
          if eds = [] then 0
          else if esgn.1 then -(digitsToNat eds : ℤ) else (digitsToNat eds : ℤ)
        else 0
      | [] => 0
    -- the exact value of the literal: sign * digits * 10^expVal / 10^(fraction length),
    -- assembled as a single reduced fraction of integers
    let mantNat : ℕ := digitsToNat intPart * 10 ^ fracSplit.1.length + digitsToNat fracSplit.1
    let numer : ℤ := (if sgn.1 then -(mantNat : ℤ) else (mantNat : ℤ)) * 10 ^ expVal.toNat
    let denom : ℕ := 10 ^ (fracSplit.1.length + (-expVal).toNat)
    .num (mkRat numer denom)

/-- JavaScript parseInt with no radix argument: skip whitespace, optional
sign, then either a 0x/0X hexadecimal literal or a run of decimal digits;
NaN when no digit follows. -/
def jsParseInt (s : String) : JsNum :=
  let cs := skipWs s.toList
  let sgn := takeSign cs
  match sgn.2 with
  | '0' :: x :: t =>
    if x = 'x' ∨ x = 'X' then
      let hds := t.takeWhile isHexDigitChar
      if hds = [] then .nan
      else
        let v : ℚ := (hexDigitsToNat hds : ℚ)
        .num (if sgn.1 then -v else v)
    else
      let ds := ('0' :: x :: t).takeWhile Char.isDigit
      .num (if sgn.1 then -(digitsToNat ds : ℚ) else (digitsToNat ds : ℚ))
  | other =>
    let ds := other.takeWhile Char.isDigit
    if ds = [] then .nan
    else .num (if sgn.1 then -(digitsToNat ds : ℚ) else (digitsToNat ds : ℚ))

/-- One entry of the raw insights `actions` / `action_values` arrays:
a platform action-type string and an optional numeric-as-string value. -/
structure RawAction where
  action_type : String
  value : Option String
deriving DecidableEq

/-- Purchase synonym set, verbatim from extractPurchases / extractRevenue. -/
def purchaseSynonyms : List String :=
  ["omni_purchase", "purchase", "offsite_conversion.fb_pixel_purchase"]

/-- Add-to-cart synonym set, verbatim from the campaigns route call site. -/
def addToCartSynonyms : List String :=
  ["omni_add_to_cart", "add_to_cart", "offsite_conversion.fb_pixel_add_to_cart"]

/-- Initiate-checkout synonym set, verbatim from the campaigns route call site. -/
def initiateCheckoutSynonyms : List String :=
  ["omni_initiated_checkout", "initiate_checkout", "offsite_conversion.fb_pixel_initiate_checkout"]

/-- Loop body of extractAction: scan the actions array in order and return
parseInt(action.value || '0') for the first action whose type is in the
given list; 0 if the scan ends without a match. -/
def extractActionGo (actionTypes : List String) : List RawAction → JsNum
  | [] => .num 0
  | a :: rest =>
    if a.action_type ∈ actionTypes then jsParseInt (jsOrStr a.value "0")
    else extractActionGo actionTypes rest

/-- extractAction from the campaigns route: 0 when the array is absent,
otherwise the first-match scan. -/
def extractAction (actions : Option (List RawAction)) (actionTypes : List String) : JsNum :=
  match actions with
  | none => .num 0
  | some l => extractActionGo actionTypes l

/-- Loop body of extractPurchases (its own loop in the source, with the
purchase synonym list inlined and parseInt on the value). -/
def extractPurchasesGo : List RawAction → JsNum
  | [] => .num 0
  | a :: rest =>
    if a.action_type ∈ purchaseSynonyms then jsParseInt (jsOrStr a.value "0")
    else extractPurchasesGo rest

/-- extractPurchases from the campaigns route. -/
def extractPurchases (actions : Option (List RawAction)) : JsNum :=
  match actions with
  | none => .num 0
  | some l => extractPurchasesGo l

/-- Loop body of extractRevenue (purchase synonym list, parseFloat on the
value, scanning the parallel action_values array). -/
def extractRevenueGo : List RawAction → JsNum
  | [] => .num 0
  | a :: rest =>
    if a.action_type ∈ purchaseSynonyms then jsParseFloat (jsOrStr a.value "0")
    else extractRevenueGo rest

/-- extractRevenue from the campaigns route. -/
def extractRevenue (actionValues : Option (List RawAction)) : JsNum :=
  match actionValues with
  | none => .num 0
  | some l => extractRevenueGo l

/-- Raw campaign descriptor as fetched from the campaigns listing:
id, name and status fields. -/
structure CampaignDescriptor where
  id : String
  name : String
  status : String
deriving DecidableEq

/-- One row of the raw insights payload for a campaign: every numeric field
arrives as an optional decimal string, plus the two action arrays. -/
structure InsightsRow where
  campaign_name : Option String
  spend : Option String
  impressions : Option String
  ctr : Option String
  frequency : Option String
  actions : Option (List RawAction)
  action_values : Option (List RawAction)
deriving DecidableEq

/-- The canonical per-campaign record built by the campaigns route; numeric
fields are JS numbers (possibly NaN after a failed parse). -/
structure NormalizedCampaign where
  name : String
  status : String
  spend : JsNum
  impressions : JsNum
  ctr : JsNum
  frequency : JsNum
  purchases : JsNum
  addToCart : JsNum
  initiateCheckout : JsNum
  revenue : JsNum
  roas : JsNum
deriving DecidableEq

/-- Metrics normalization from the campaigns route: with an insights row
present, parse the numeric strings (absent or empty fields default to the
string "0"), extract the funnel counts and revenue through the synonym
sets, and derive roas with the divide-by-zero guard; with the row absent,
produce the all-zero record carrying the descriptor's name and status. -/
def normalize (campaign : CampaignDescriptor) (insights : Option InsightsRow) :
    NormalizedCampaign :=
  match insights with
  | some ins =>
    let spend := jsParseFloat (jsOrStr ins.spend "0")
    let revenue := extractRevenue ins.action_values
    let roas := if spend.gtZero then JsNum.div revenue spend else .num 0
    { name := jsOrStr ins.campaign_name campaign.name
      status := campaign.status
      spend := spend
      impressions := jsParseInt (jsOrStr ins.impressions "0")
      ctr := jsParseFloat (jsOrStr ins.ctr "0")
      frequency := jsParseFloat (jsOrStr ins.frequency "0")
      purchases := extractPurchases ins.actions
      addToCart := extractAction ins.actions addToCartSynonyms
      initiateCheckout := extractAction ins.actions initiateCheckoutSynonyms
      revenue := revenue
      roas := roas }
  | none =>
    { name := campaign.name
      status := campaign.status
      spend := .num 0
      impressions := .num 0
      ctr := .num 0
      frequency := .num 0
      purchases := .num 0
      addToCart := .num 0
      initiateCheckout := .num 0
      revenue := .num 0
      roas := .num 0 }

/-- The four health states of the dashboard classifier. -/
inductive HealthState where
  | green
  | yellow
  | red
  | gray
deriving DecidableEq

/-- The dashboard's Campaign interface: a normalized record as consumed by
the client (all numeric fields are plain JS numbers, idealized as ℚ). -/
structure Campaign where
  name : String
  status : String
  spend : ℚ
  impressions : ℚ
  ctr : ℚ
  frequency : ℚ
  purchases : ℚ
  addToCart : ℚ
  initiateCheckout : ℚ
  revenue : ℚ
  roas : ℚ
deriving DecidableEq

/-- getCampaignHealth from the dashboard client, verbatim rule order:
dormancy, then the conjunctive green bar, then the disjunctive red bar,
then yellow. -/
def getCampaignHealth (c : Campaign) : HealthState :=
  if c.spend = 0 ∧ c.impressions = 0 then .gray
  else if c.roas ≥ 2 ∧ c.ctr ≥ 1.5 ∧ c.frequency ≤ 3 then .green
  else if c.roas < 1 ∨ c.ctr < 0.8 ∨ c.frequency > 5 then .red
  else .yellow

/-- Dormancy predicate of the spec's rule chain (rule 1). -/
def dormantRule (m : Campaign) : Bool :=
  decide (m.spend = 0 ∧ m.impressions = 0)

/-- Green predicate of the spec's rule chain (rule 2, conjunctive). -/
def greenRule (m : Campaign) : Bool :=
  decide (m.roas ≥ 2 ∧ m.ctr ≥ 1.5 ∧ m.frequency ≤ 3)

/-- Red predicate of the spec's rule chain (rule 3, disjunctive). -/
def redRule (m : Campaign) : Bool :=
  decide (m.roas < 1 ∨ m.ctr < 0.8 ∨ m.frequency > 5)

/-- First-match evaluation of an ordered (predicate, state) rule list with
a default state, as the spec describes the classifier. -/
def firstMatch : List ((Campaign → Bool) × HealthState) → HealthState → Campaign → HealthState
  | [], d, _ => d
  | (p, s) :: rest, d, m => if p m then s else firstMatch rest d m

/-- The spec's ordered rule chain: gray on dormancy, then green, then red. -/
def ruleChain : List ((Campaign → Bool) × HealthState) :=
  [(dormantRule, .gray), (greenRule, .green), (redRule, .red)]

/-- Modelled from the spec: the classifier as a top-to-bottom first-match
rule chain with yellow as the default bucket (used to compare against the
source classifier getCampaignHealth). -/
def classifyChain (m : Campaign) : HealthState :=
  firstMatch ruleChain .yellow m

/-- The dashboard's status filter union type. -/
inductive StatusFilter where
  | ALL
  | ACTIVE
  | PAUSED
  | ARCHIVED
deriving DecidableEq

/-- The literal string a status filter compares against. -/
def StatusFilter.toStr : StatusFilter → String
  | .ALL => "ALL"
  | .ACTIVE => "ACTIVE"
  | .PAUSED => "PAUSED"
  | .ARCHIVED => "ARCHIVED"

/-- filteredCampaigns from the dashboard client: pass everything through on
ALL, otherwise keep the records whose status string matches exactly. -/
def filteredCampaigns (campaigns : List Campaign) (statusFilter : StatusFilter) :
    List Campaign :=
  match statusFilter with
  | .ALL => campaigns
  | f => campaigns.filter (fun c => decide (c.status = f.toStr))

/-- The six summed account-level fields of the dashboard's totals card. -/
structure Totals where
  spend : ℚ
  impressions : ℚ
  revenue : ℚ
  purchases : ℚ
  addToCart : ℚ
  initiateCheckout : ℚ
deriving DecidableEq

/-- Initial accumulator of the totals reduce. -/
def totalsInit : Totals :=
  { spend := 0, impressions := 0, revenue := 0, purchases := 0
    addToCart := 0, initiateCheckout := 0 }

/-- Reduce step of the dashboard's totals: six field-wise additions, with
the JS `|| 0` guard on the two funnel fields. -/
def totalsStep (acc : Totals) (c : Campaign) : Totals :=
  { spend := acc.spend + c.spend
    impressions := acc.impressions + c.impressions
    revenue := acc.revenue + c.revenue
    purchases := acc.purchases + c.purchases
    addToCart := acc.addToCart + jsOrZero c.addToCart
    initiateCheckout := acc.initiateCheckout + jsOrZero c.initiateCheckout }

/-- The dashboard's totals reduce over a record list. -/
def totals (l : List Campaign) : Totals :=
  l.foldl totalsStep totalsInit

/-- aggregate(records, filter): the totals of the status-filtered records,
as computed by the dashboard (filteredCampaigns then the totals reduce). -/
def aggregate (campaigns : List Campaign) (statusFilter : StatusFilter) : Totals :=
  totals (filteredCampaigns campaigns statusFilter)

/-- Field-wise sum of two Totals values. -/
def Totals.add (a b : Totals) : Totals :=
  { spend := a.spend + b.spend
    impressions := a.impressions + b.impressions
    revenue := a.revenue + b.revenue
    purchases := a.purchases + b.purchases
    addToCart := a.addToCart + b.addToCart
    initiateCheckout := a.initiateCheckout + b.initiateCheckout }

/-- The contribution of one record to the totals (with the `|| 0` guard on
the funnel fields, as in totalsStep). -/
def contrib (c : Campaign) : Totals :=
  { spend := c.spend
    impressions := c.impressions
    revenue := c.revenue
    purchases := c.purchases
    addToCart := jsOrZero c.addToCart
    initiateCheckout := jsOrZero c.initiateCheckout }

/-- Field-wise sum of the contributions of a record list. -/
def sumContribs : List Campaign → Totals
  | [] => totalsInit
  | c :: rest => Totals.add (contrib c) (sumContribs rest)

/-- Outcome of invoking one language-model backend in the analyze/chat
routes: either the full buffered text, or a failure carrying whatever
partial chunks the backend emitted before dying and the optional error
message attached to the exception. -/
inductive BackendOutcome where
  | ok : String → BackendOutcome
  | err : List String → Option String → BackendOutcome

/-- The fixed backend priority list of the analyze and chat routes. -/
def models : List String :=
  ["gemini-3.1-pro-preview", "gemini-3-flash-preview"]

/-- The synthetic user-facing plain-text message returned once the last
model fails, built from the last exception message only. -/
def geminiErrorMessage (msg : Option String) : String :=
  "# ⚠️ Error de Gemini\n\n" ++ msg.getD "Error desconocido"

/-- The fallback loop of the analyze/chat routes over the fixed two-model
list: return the first model's text if it succeeds, otherwise the second
model's text, otherwise the synthetic error message (partial chunks of a
failed attempt are discarded, never returned). -/
def runFallback (first second : BackendOutcome) : String :=
  match first with
  | .ok t => t
  | .err _ _ =>
    match second with
    | .ok t => t
    | .err _ m => geminiErrorMessage m

/-- One observable event of the chat response stream as consumed by
sendChatMessage in the dashboard client: a decoded text chunk, normal
completion, rejection of the pending read with an AbortError after the
caller cancelled, or any other failure with its optional message. -/
inductive ReadEvent where
  | chunk : String → ReadEvent
  | done : ReadEvent
  | abortError : ReadEvent
  | failure : Option String → ReadEvent

/-- The error text sendChatMessage writes into the assistant message for a
non-abort failure. -/
def chatErrorMessage (msg : Option String) : String :=
  "# ⚠️ Error\n\n" ++ msg.getD "Error desconocido"

/-- The read loop of sendChatMessage: accumulate chunks into the assistant
message until done; an AbortError leaves the message as accumulated so far
(the catch clause skips it) and stops reading; any other failure replaces
the pending content with the synthetic chat error text. -/
def processStream : String → List ReadEvent → String
  | acc, [] => acc
  | acc, .chunk s :: rest => processStream (acc ++ s) rest
  | acc, .done :: _ => acc
  | acc, .abortError :: _ => acc
  | _, .failure m :: _ => chatErrorMessage m

/-- The assistant-message content produced by one sendChatMessage call
whose stream delivered the given events. -/
def sendChatMessageContent (events : List ReadEvent) : String :=
  processStream "" events

/-- Concatenation of a chunk list in arrival order. -/
def joinChunks : List String → String
  | [] => ""
  | s :: rest => s ++ joinChunks rest

/-- Concrete descriptor used by the example records below. -/
def exDescriptor : CampaignDescriptor :=
  { id := "120210000000000001", name := "Prospecting CR", status := "ACTIVE" }

/-- Insights row whose purchase action value is the negative decimal string
"-5": spend parses to 10, revenue to -5, so the derived roas is negative. -/
def insNegRevenue : InsightsRow :=
  { campaign_name := none, spend := some "10", impressions := some "1000"
    ctr := some "1.2", frequency := some "2", actions := none
    action_values := some [{ action_type := "purchase", value := some "-5" }] }

/-- Insights row with every numeric string unparseable ("abc" spend, "xyz"
action value): every parse yields NaN, not 0. -/
def insUnparseable : InsightsRow :=
  { campaign_name := none, spend := some "abc", impressions := some "1000"
    ctr := some "1.2", frequency := some "2"
    actions := some [{ action_type := "purchase", value := some "xyz" }]
    action_values := none }

/-- Insights row with spend "0" and a well-formed positive payload. -/
def insZeroSpend : InsightsRow :=
  { campaign_name := none, spend := some "0", impressions := some "500"
    ctr := some "1.2", frequency := some "2", actions := none
    action_values := some [{ action_type := "purchase", value := some "20" }] }

/-- Insights row with spend "10" and purchase value "20" (roas 2). -/
def insPositive : InsightsRow :=
  { campaign_name := none, spend := some "10", impressions := some "1000"
    ctr := some "1.2", frequency := some "2", actions := none
    action_values := some [{ action_type := "purchase", value := some "20" }] }

/-- Insights row with the spend field absent. -/
def insAbsentSpend : InsightsRow :=
  { campaign_name := none, spend := none, impressions := some "1000"
    ctr := some "1.2", frequency := some "2", actions := none
    action_values := none }

/-- A dormant record whose other metrics would match the green and red
rules if dormancy did not take priority. -/
def dormantCampaign : Campaign :=
  { name := "Dormant", status := "PAUSED", spend := 0, impressions := 0
    ctr := 9, frequency := 9, purchases := 3, addToCart := 5
    initiateCheckout := 4, revenue := 100, roas := 10 }

/-- A record with status DELETED: the dashboard's filter union type has no
DELETED case, so this record is counted under ALL but under none of the
three explicit status filters. -/
def deletedCampaign : Campaign :=
  { name := "Old", status := "DELETED", spend := 1, impressions := 10
    ctr := 1, frequency := 1, purchases := 0, addToCart := 0
    initiateCheckout := 0, revenue := 0, roas := 0 }

/-- An active record used by the aggregation witness. -/
def activeCampaign : Campaign :=
  { name := "Active", status := "ACTIVE", spend := 3, impressions := 100
    ctr := 2, frequency := 1, purchases := 2, addToCart := 4
    initiateCheckout := 3, revenue := 9, roas := 3 }

/-- A paused record used by the aggregation witness. -/
def pausedCampaign : Campaign :=
  { name := "Paused", status := "PAUSED", spend := 5, impressions := 200
    ctr := 1, frequency := 2, purchases := 1, addToCart := 2
    initiateCheckout := 1, revenue := 5, roas := 1 }

/-- An archived record used by the aggregation witness. -/
def archivedCampaign : Campaign :=
  { name := "Archived", status := "ARCHIVED", spend := 7, impressions := 50
    ctr := 1, frequency := 4, purchases := 0, addToCart := 0
    initiateCheckout := 0, revenue := 0, roas := 0 }

/-- Record list used by the aggregation partition witness. -/
def aggWitnessList : List Campaign :=
  [activeCampaign, pausedCampaign, archivedCampaign]

/-- Helper: the extractAction scan returns the parsed value of the first
list element whose action type is in the synonym list, 0 if none. -/
theorem extractActionGo_eq_find (actionTypes : List String) (l : List RawAction) :
    extractActionGo actionTypes l =
      (match l.find? (fun a => decide (a.action_type ∈ actionTypes)) with
        | none => JsNum.num 0
        | some a => jsParseInt (jsOrStr a.value "0")) := by
  induction l with
  | nil => rfl
  | cons a rest ih =>
    by_cases h : a.action_type ∈ actionTypes
    · rw [extractActionGo, if_pos h, List.find?_cons_of_pos _ (by simpa using h)]
    · rw [extractActionGo, if_neg h, List.find?_cons_of_neg _ (by simpa using h), ih]

/-- C1: the health classifier is the top-to-bottom first-match rule chain
(gray on dormancy, then the conjunctive green bar, then the disjunctive red
bar, then yellow), and a record with spend 0 and impressions 0 is gray
regardless of every other field; totality and determinism hold because
getCampaignHealth is a total function of the record. -/
theorem classify_matches_rule_chain (m : Campaign) :
    getCampaignHealth m = classifyChain m ∧
    (m.spend = 0 → m.impressions = 0 → getCampaignHealth m = HealthState.gray) := by
  constructor
  · simp only [getCampaignHealth, classifyChain, ruleChain, firstMatch, dormantRule,
      greenRule, redRule, decide_eq_true_eq, Bool.if_true_left]
  · intro h1 h2
    simp [getCampaignHealth, h1, h2]

/-- C1 witness: the dormant example record (whose other metrics satisfy the
green and red predicates) is classified gray and agrees with the chain. -/
theorem classify_matches_rule_chain_wit :
    getCampaignHealth dormantCampaign = HealthState.gray ∧
    getCampaignHealth dormantCampaign = classifyChain dormantCampaign :=
  ⟨(classify_matches_rule_chain dormantCampaign).2 rfl rfl,
   (classify_matches_rule_chain dormantCampaign).1⟩

/-- C10: the classifier reads only spend, impressions, roas, ctr and
frequency: two records agreeing on those five fields get the same health
state whatever their name, status, revenue, purchases, addToCart and
initiateCheckout are. -/
theorem classify_depends_on_five_fields (c c' : Campaign)
    (h1 : c.spend = c'.spend) (h2 : c.impressions = c'.impressions)
    (h3 : c.roas = c'.roas) (h4 : c.ctr = c'.ctr) (h5 : c.frequency = c'.frequency) :
    getCampaignHealth c = getCampaignHealth c' := by
  simp only [getCampaignHealth, h1, h2, h3, h4, h5]

/-- C10 witness: the dormant example record and a copy differing in name,
status, revenue and purchases are classified identically. -/
theorem classify_depends_on_five_fields_wit :
    getCampaignHealth dormantCampaign =
      getCampaignHealth { dormantCampaign with
        name := "Other", status := "ACTIVE", revenue := 0, purchases := 0 } :=
  classify_depends_on_five_fields _ _ rfl rfl rfl rfl rfl

/-- C3: normalization of a descriptor with an absent insights payload
always succeeds (it is a total function) and yields the record whose name
and status come from the descriptor and whose nine numeric fields are all
zero, roas included. -/
theorem normalize_absent_insights_zeroed (d : CampaignDescriptor) :
    normalize d none =
      { name := d.name, status := d.status, spend := .num 0, impressions := .num 0
        ctr := .num 0, frequency := .num 0, purchases := .num 0, addToCart := .num 0
        initiateCheckout := .num 0, revenue := .num 0, roas := .num 0 } :=
  rfl

/-- C5: action extraction returns 0 for an absent action list, for an empty
list, and for a list with no matching action type; with at least one match
it returns the parsed value of the first matching action in the list; in
particular one purchase action with value "12" extracts 12. -/
theorem extract_first_match_semantics :
    (∀ actionTypes : List String, extractAction none actionTypes = JsNum.num 0) ∧
    (∀ actionTypes : List String, extractAction (some []) actionTypes = JsNum.num 0) ∧
    (∀ (l : List RawAction) (actionTypes : List String),
      extractAction (some l) actionTypes =
        (match l.find? (fun a => decide (a.action_type ∈ actionTypes)) with
          | none => JsNum.num 0
          | some a => jsParseInt (jsOrStr a.value "0"))) ∧
    extractAction (some [{ action_type := "purchase", value := some "12" }])
      purchaseSynonyms = JsNum.num 12 := by
  refine ⟨fun _ => rfl, fun _ => rfl, fun l actionTypes => ?_, by decide⟩
  exact extractActionGo_eq_find actionTypes l

/-- C6 counterexample: an action list holding two actions whose types are
distinct members of the purchase synonym set, with the list order opposite
to the synonym-set order; extraction returns 5 (first in the list) and not
7 (whose action type appears earlier in the synonym set), refuting
synonym-set-order priority. -/
theorem synonym_order_cex :
    extractPurchases (some [{ action_type := "purchase", value := some "5" },
        { action_type := "omni_purchase", value := some "7" }]) = JsNum.num 5 ∧
    extractPurchases (some [{ action_type := "purchase", value := some "5" },
        { action_type := "omni_purchase", value := some "7" }]) ≠ JsNum.num 7 := by
  decide

/-- C6 amended: with duplicate actions for the same logical event, the
extractor returns the value of the action appearing first in the action
list; the position of its type inside the synonym set has no effect. -/
theorem extract_list_order_priority (a : RawAction) (l : List RawAction)
    (actionTypes : List String) (h : a.action_type ∈ actionTypes) :
    extractAction (some (a :: l)) actionTypes = jsParseInt (jsOrStr a.value "0") := by
  simp only [extractAction, extractActionGo, if_pos h]

/-- C6 amended witness: the duplicate-pair list returns the first listed
action's value 5. -/
theorem extract_list_order_priority_wit :
    extractAction (some [{ action_type := "purchase", value := some "5" },
        { action_type := "omni_purchase", value := some "7" }]) purchaseSynonyms =
      jsParseInt (jsOrStr (some "5") "0") :=
  extract_list_order_priority _ _ _ (by decide)

/-- C8: when both backends of the fixed priority list fail, the pipeline
output is exactly the single synthetic user-facing error message built from
the last failure message, and it is independent of every text chunk any
backend produced before failing (so no backend chunk appears in it). -/
theorem advisory_all_backends_fail (c1 c2 c1' c2' : List String)
    (m1 m1' m2 : Option String) :
    runFallback (.err c1 m1) (.err c2 m2) = geminiErrorMessage m2 ∧
    runFallback (.err c1 m1) (.err c2 m2) = runFallback (.err c1' m1') (.err c2' m2) :=
  ⟨rfl, rfl⟩

/-- Helper: the roas field of a normalized record is the guarded division
of its revenue field by its spend field. -/
theorem normalize_roas_eq (d : CampaignDescriptor) (ins : InsightsRow) :
    (normalize d (some ins)).roas =
      (if (normalize d (some ins)).spend.gtZero
       then JsNum.div (normalize d (some ins)).revenue (normalize d (some ins)).spend
       else JsNum.num 0) :=
  rfl

/-- Helper: the guarded roas formula is never negative when the revenue it
divides is not negative. -/
theorem roas_guard_nonneg_aux (rev sp : JsNum) (h : rev.isNeg = false) :
    (if sp.gtZero then JsNum.div rev sp else JsNum.num 0).isNeg = false := by
  cases sp with
  | nan => simp [JsNum.gtZero, JsNum.isNeg]
  | num q =>
    by_cases hq : 0 < q
    · rw [if_pos (by simp [JsNum.gtZero, hq])]
      cases rev with
      | nan => simp [JsNum.div, JsNum.isNeg]
      | num r =>
        have hr : 0 ≤ r := by simpa [JsNum.isNeg, not_lt] using h
        have hq0 : q ≠ 0 := ne_of_gt hq
        simp only [JsNum.div, if_neg hq0, JsNum.isNeg, decide_eq_false_iff_not, not_lt]
        exact div_nonneg hr (le_of_lt hq)
    · rw [if_neg (by simp [JsNum.gtZero, hq])]
      simp [JsNum.isNeg]

/-- C2 (amended): for every record produced by normalization from a present
insights row, roas is 0 when spend is 0, roas is the division of revenue by
spend when spend is strictly positive (the division is only performed under
that guard), and roas is non-negative whenever the extracted revenue is
non-negative.  (A negative revenue value string makes roas negative, which
is the part of the original claim that fails; see the counterexample.) -/
theorem roas_division_guard (d : CampaignDescriptor) (ins : InsightsRow) :
    ((normalize d (some ins)).spend = JsNum.num 0 → (normalize d (some ins)).roas = JsNum.num 0) ∧
    ((normalize d (some ins)).spend.gtZero = true →
      (normalize d (some ins)).roas =
        JsNum.div (normalize d (some ins)).revenue (normalize d (some ins)).spend) ∧
    ((normalize d (some ins)).revenue.isNeg = false →
      (normalize d (some ins)).roas.isNeg = false) := by
  refine ⟨?_, ?_, ?_⟩
  · intro h
    rw [normalize_roas_eq, h]
    simp [JsNum.gtZero]
  · intro h
    rw [normalize_roas_eq, if_pos h]
  · intro h
    rw [normalize_roas_eq]
    exact roas_guard_nonneg_aux _ _ h

/-- C2 witness: with spend "0" roas is 0; with spend "10" and purchase
value "20" roas is the revenue/spend division and is not negative. -/
theorem roas_division_guard_wit :
    (normalize exDescriptor (some insZeroSpend)).roas = JsNum.num 0 ∧
    (normalize exDescriptor (some insPositive)).roas =
      JsNum.div (normalize exDescriptor (some insPositive)).revenue
        (normalize exDescriptor (some insPositive)).spend ∧
    (normalize exDescriptor (some insPositive)).roas.isNeg = false :=
  ⟨(roas_division_guard exDescriptor insZeroSpend).1 (by decide),
   (roas_division_guard exDescriptor insPositive).2.1 (by decide),
   (roas_division_guard exDescriptor insPositive).2.2 (by decide)⟩

/-- C2 counterexample: an insights row with spend "10" and purchase action
value "-5" normalizes to a record with roas = -1/2, which is negative,
refuting the claim that roas is never negative. -/
theorem roas_negative_cex :
    ((normalize exDescriptor (some insNegRevenue)).roas).isNeg = true := by
  have h : (normalize exDescriptor (some insNegRevenue)).roas = JsNum.num ((-5 : ℚ) / 10) := rfl
  rw [h]
  simp only [JsNum.isNeg, decide_eq_true_eq]
  norm_num

/-- C4 counterexample: an insights row whose spend is the non-numeric
string "abc" and whose first purchase action value is "xyz" normalizes to a
record whose spend and purchases are NaN, not 0, refuting the claim that an
unparseable value is treated as 0 in the resulting record. -/
theorem parse_failure_nan_cex :
    (normalize exDescriptor (some insUnparseable)).spend = JsNum.nan ∧
    (normalize exDescriptor (some insUnparseable)).spend ≠ JsNum.num 0 ∧
    (normalize exDescriptor (some insUnparseable)).purchases = JsNum.nan ∧
    (normalize exDescriptor (some insUnparseable)).purchases ≠ JsNum.num 0 := by
  decide

/-- C4 (amended): normalization and action extraction are total functions
(they never raise); an absent numeric field is treated as 0; but a present
non-empty value string that fails to parse propagates as NaN into the
resulting record, not as 0 (shown here for the spend field and for the
purchases field extracted from a matching action). -/
theorem parse_failure_behavior (d : CampaignDescriptor) (ins : InsightsRow) :
    (ins.spend = none → (normalize d (some ins)).spend = JsNum.num 0) ∧
    (∀ s, ins.spend = some s → s ≠ "" → jsParseFloat s = JsNum.nan →
      (normalize d (some ins)).spend = JsNum.nan) ∧
    (∀ a rest, ins.actions = some (a :: rest) → a.action_type ∈ purchaseSynonyms →
      ∀ v, a.value = some v → v ≠ "" → jsParseInt v = JsNum.nan →
      (normalize d (some ins)).purchases = JsNum.nan) := by
  refine ⟨?_, ?_, ?_⟩
  · intro h
    show jsParseFloat (jsOrStr ins.spend "0") = JsNum.num 0
    rw [h]
    decide
  · intro s hs hne hnan
    show jsParseFloat (jsOrStr ins.spend "0") = JsNum.nan
    rw [hs]
    simpa [jsOrStr, hne] using hnan
  · intro a rest hacts hmem v hv hvne hnan
    show extractPurchases ins.actions = JsNum.nan
    rw [hacts]
    show extractPurchasesGo (a :: rest) = JsNum.nan
    rw [extractPurchasesGo, if_pos hmem, hv]
    simpa [jsOrStr, hvne] using hnan

/-- C4 amended witness: an absent spend field yields spend 0, while the
"abc" spend string and the "xyz" purchase value yield NaN fields. -/
theorem parse_failure_behavior_wit :
    (normalize exDescriptor (some insAbsentSpend)).spend = JsNum.num 0 ∧
    (normalize exDescriptor (some insUnparseable)).spend = JsNum.nan ∧
    (normalize exDescriptor (some insUnparseable)).purchases = JsNum.nan :=
  ⟨(parse_failure_behavior exDescriptor insAbsentSpend).1 rfl,
   (parse_failure_behavior exDescriptor insUnparseable).2.1 "abc" rfl (by decide) (by decide),
   (parse_failure_behavior exDescriptor insUnparseable).2.2
     { action_type := "purchase", value := some "xyz" } [] rfl (by decide)
     "xyz" rfl (by decide) (by decide)⟩

/-- Helper: consuming a prefix of chunk events appends their concatenation
to the accumulated assistant-message content. -/
theorem processStream_chunks :
    ∀ (pre : List String) (acc : String) (rest : List ReadEvent),
      processStream acc (pre.map ReadEvent.chunk ++ rest) =
        processStream (acc ++ joinChunks pre) rest
  | [], acc, rest => by simp [joinChunks, String.append_empty]
  | s :: pre, acc, rest => by
    show processStream (acc ++ s) (pre.map ReadEvent.chunk ++ rest) =
      processStream (acc ++ (s ++ joinChunks pre)) rest
    rw [processStream_chunks pre (acc ++ s) rest, String.append_assoc]

/-- C9: once the caller cancels, the pending read rejects with an
AbortError; the assistant message then holds exactly the chunks delivered
before the cancellation — every later event (chunks or failures) is
ignored, and no error text is produced (the content equals the plain chunk
concatenation, identical to a stream that ended at the cancellation). -/
theorem chat_stream_cancellation (pre : List String) (post : List ReadEvent) :
    sendChatMessageContent (pre.map ReadEvent.chunk ++ ReadEvent.abortError :: post) =
      joinChunks pre ∧
    sendChatMessageContent (pre.map ReadEvent.chunk ++ ReadEvent.abortError :: post) =
      sendChatMessageContent (pre.map ReadEvent.chunk ++ [ReadEvent.abortError]) := by
  have key : ∀ post' : List ReadEvent,
      sendChatMessageContent (pre.map ReadEvent.chunk ++ ReadEvent.abortError :: post') =
        joinChunks pre := by
    intro post'
    rw [sendChatMessageContent, processStream_chunks]
    show "" ++ joinChunks pre = joinChunks pre
    exact String.empty_append _
  exact ⟨key post, (key post).trans (key []).symm⟩

/-- Helper: the empty totals value is a right identity of Totals.add. -/
theorem Totals.add_totalsInit (a : Totals) : Totals.add a totalsInit = a := by
  cases a
  simp [Totals.add, totalsInit]

/-- Helper: the empty totals value is a left identity of Totals.add. -/
theorem Totals.totalsInit_add (a : Totals) : Totals.add totalsInit a = a := by
  cases a
  simp [Totals.add, totalsInit]

/-- Helper: field-wise totals addition is associative. -/
theorem Totals.add_assoc (a b c : Totals) :
    Totals.add (Totals.add a b) c = Totals.add a (Totals.add b c) := by
  cases a
  cases b
  cases c
  simp only [Totals.add, Totals.mk.injEq]
  refine ⟨?_, ?_, ?_, ?_, ?_, ?_⟩ <;> ring

/-- Helper: the totals reduce is the accumulator plus the record list's
field-wise contribution sum. -/
theorem foldl_totalsStep (l : List Campaign) :
    ∀ acc : Totals, l.foldl totalsStep acc = Totals.add acc (sumContribs l) := by
  induction l with
  | nil =>
    intro acc
    simp [sumContribs, Totals.add_totalsInit]
  | cons c rest ih =>
    intro acc
    rw [List.foldl_cons, ih (totalsStep acc c)]
    show Totals.add (Totals.add acc (contrib c)) (sumContribs rest) =
      Totals.add acc (sumContribs (c :: rest))
    rw [Totals.add_assoc]
    rfl

/-- Helper: the dashboard's totals equal the contribution sum. -/
theorem totals_eq_sumContribs (l : List Campaign) : totals l = sumContribs l := by
  rw [totals, foldl_totalsStep, Totals.totalsInit_add]

/-- Helper: any additive projection of the contribution sum is the list sum
of the per-record projections. -/
theorem sumContribs_proj (g : Totals → ℚ)
    (hg : ∀ a b, g (Totals.add a b) = g a + g b) (hz : g totalsInit = 0) :
    ∀ l : List Campaign, g (sumContribs l) = (l.map (fun c => g (contrib c))).sum := by
  intro l
  induction l with
  | nil => simpa [sumContribs] using hz
  | cons c rest ih => simp [sumContribs, hg, ih]

/-- Helper: a list sum splits across the three status filters when every
record carries one of the three statuses. -/
theorem list_sum_partition (f : Campaign → ℚ) (l : List Campaign)
    (h : ∀ c ∈ l, c.status = "ACTIVE" ∨ c.status = "PAUSED" ∨ c.status = "ARCHIVED") :
    (l.map f).sum =
      ((l.filter (fun c => decide (c.status = "ACTIVE"))).map f).sum +
      ((l.filter (fun c => decide (c.status = "PAUSED"))).map f).sum +
      ((l.filter (fun c => decide (c.status = "ARCHIVED"))).map f).sum := by
  induction l with
  | nil => simp
  | cons c rest ih =>
    have key := ih fun x hx => h x (List.mem_cons_of_mem _ hx)
    rcases h c (List.mem_cons_self _ _) with hs | hs | hs <;>
      simp [List.filter_cons, hs, key] <;> ring

/-- C7 (amended): over a record list in which every status is one of
ACTIVE, PAUSED and ARCHIVED, each of the six summed fields of
aggregate(records, ALL) equals the sum of that field over the three
per-status aggregations.  (A record with any other status — such as the
data model's DELETED — is counted under ALL but under none of the three
filters; see the counterexample.) -/
theorem aggregate_partition_consistency (l : List Campaign)
    (h : ∀ c ∈ l, c.status = "ACTIVE" ∨ c.status = "PAUSED" ∨ c.status = "ARCHIVED") :
    (aggregate l .ALL).spend =
      (aggregate l .ACTIVE).spend + (aggregate l .PAUSED).spend + (aggregate l .ARCHIVED).spend ∧
    (aggregate l .ALL).impressions =
      (aggregate l .ACTIVE).impressions + (aggregate l .PAUSED).impressions +
        (aggregate l .ARCHIVED).impressions ∧
    (aggregate l .ALL).revenue =
      (aggregate l .ACTIVE).revenue + (aggregate l .PAUSED).revenue +
        (aggregate l .ARCHIVED).revenue ∧
    (aggregate l .ALL).purchases =
      (aggregate l .ACTIVE).purchases + (aggregate l .PAUSED).purchases +
        (aggregate l .ARCHIVED).purchases ∧
    (aggregate l .ALL).addToCart =
      (aggregate l .ACTIVE).addToCart + (aggregate l .PAUSED).addToCart +
        (aggregate l .ARCHIVED).addToCart ∧
    (aggregate l .ALL).initiateCheckout =
      (aggregate l .ACTIVE).initiateCheckout + (aggregate l .PAUSED).initiateCheckout +
        (aggregate l .ARCHIVED).initiateCheckout := by
  have hAll : aggregate l .ALL = sumContribs l := totals_eq_sumContribs l
  have hA : aggregate l .ACTIVE =
      sumContribs (l.filter (fun c => decide (c.status = "ACTIVE"))) :=
    totals_eq_sumContribs _
  have hP : aggregate l .PAUSED =
      sumContribs (l.filter (fun c => decide (c.status = "PAUSED"))) :=
    totals_eq_sumContribs _
  have hR : aggregate l .ARCHIVED =
      sumContribs (l.filter (fun c => decide (c.status = "ARCHIVED"))) :=
    totals_eq_sumContribs _
  have main : ∀ g : Totals → ℚ, (∀ a b, g (Totals.add a b) = g a + g b) → g totalsInit = 0 →
      g (aggregate l .ALL) =
        g (aggregate l .ACTIVE) + g (aggregate l .PAUSED) + g (aggregate l .ARCHIVED) := by
    intro g hg hz
    rw [hAll, hA, hP, hR, sumContribs_proj g hg hz, sumContribs_proj g hg hz,
      sumContribs_proj g hg hz, sumContribs_proj g hg hz]
    exact list_sum_partition _ l h
  exact ⟨main (fun t => t.spend) (fun _ _ => rfl) rfl,
    main (fun t => t.impressions) (fun _ _ => rfl) rfl,
    main (fun t => t.revenue) (fun _ _ => rfl) rfl,
    main (fun t => t.purchases) (fun _ _ => rfl) rfl,
    main (fun t => t.addToCart) (fun _ _ => rfl) rfl,
    main (fun t => t.initiateCheckout) (fun _ _ => rfl) rfl⟩

/-- C7 amended witness: on a concrete three-record list with one record per
status, the six ALL totals split across the three per-status totals. -/
theorem aggregate_partition_consistency_wit :
    (aggregate aggWitnessList .ALL).spend =
      (aggregate aggWitnessList .ACTIVE).spend + (aggregate aggWitnessList .PAUSED).spend +
        (aggregate aggWitnessList .ARCHIVED).spend ∧
    (aggregate aggWitnessList .ALL).impressions =
      (aggregate aggWitnessList .ACTIVE).impressions +
        (aggregate aggWitnessList .PAUSED).impressions +
        (aggregate aggWitnessList .ARCHIVED).impressions ∧
    (aggregate aggWitnessList .ALL).revenue =
      (aggregate aggWitnessList .ACTIVE).revenue + (aggregate aggWitnessList .PAUSED).revenue +
        (aggregate aggWitnessList .ARCHIVED).revenue ∧
    (aggregate aggWitnessList .ALL).purchases =
      (aggregate aggWitnessList .ACTIVE).purchases +
        (aggregate aggWitnessList .PAUSED).purchases +
        (aggregate aggWitnessList .ARCHIVED).purchases ∧
    (aggregate aggWitnessList .ALL).addToCart =
      (aggregate aggWitnessList .ACTIVE).addToCart +
        (aggregate aggWitnessList .PAUSED).addToCart +
        (aggregate aggWitnessList .ARCHIVED).addToCart ∧
    (aggregate aggWitnessList .ALL).initiateCheckout =
      (aggregate aggWitnessList .ACTIVE).initiateCheckout +
        (aggregate aggWitnessList .PAUSED).initiateCheckout +
        (aggregate aggWitnessList .ARCHIVED).initiateCheckout :=
  aggregate_partition_consistency aggWitnessList (by decide)

/-- C7 counterexample: a single record with status DELETED (a status the
data model admits) has ALL spend 1 but per-status spends 0 + 0 + 0, so the
partition equation of the claim fails. -/
theorem aggregate_partition_cex :
    ¬ ((aggregate [deletedCampaign] .ALL).spend =
        (aggregate [deletedCampaign] .ACTIVE).spend +
          (aggregate [deletedCampaign] .PAUSED).spend +
          (aggregate [deletedCampaign] .ARCHIVED).spend) := by
  have h1 : (aggregate [deletedCampaign] .ALL).spend = 0 + 1 := rfl
  have h2 : (aggregate [deletedCampaign] .ACTIVE).spend = 0 := rfl
  have h3 : (aggregate [deletedCampaign] .PAUSED).spend = 0 := rfl
  have h4 : (aggregate [deletedCampaign] .ARCHIVED).spend = 0 := rfl
  rw [h1, h2, h3, h4]
  norm_num

end TribuAnalyzer
